import Mathlib

/-!
Verification development for the synthetic healthcare-claims generation engine
(`src/ingestion`): a shallow embedding of the claim generator, note generator,
schema validation and generation orchestrator, with theorems checking the
documented invariants and algorithms against the embedded code.

Modelling conventions:
* Python `float` money amounts are modelled as rationals (`ℚ`); `round(x, 2)`
  is modelled as `round2` (round to nearest cent; the exact-tie behaviour of
  Python's banker rounding is immaterial to every statement proved here).
* `datetime.date` values are modelled as proleptic-Gregorian day ordinals
  (`Nat`), so `d + timedelta(days = n)` is `d + n`; `toOrdinal y m d` converts
  a civil date.
* Randomness is explicit: every `random.*` call site reads a value supplied by
  the caller.  `random.random()` / `random.uniform` draws are `ℚ` arguments,
  `random.choice` index draws are `Nat` arguments mapped into range by `% len`,
  and `random.choices(keys, weights)` is the cumulative-distribution draw over
  one uniform `ℚ` value.  Where the stream structure itself matters (the
  denial decision of claim_generator.py lines 108-117, and seeding) the RNG is
  a stream `Nat → ℚ` (resp. `Nat → Nat`) with an explicit read index.
-/

namespace HCIA

/-- `round(x, 2)`: round to two decimal places (nearest cent). -/
def round2 (q : ℚ) : ℚ := (round (q * 100) : ℤ) / 100

/-- `random.uniform(a, b)` modelled as `a + (b - a) * r` for a unit draw `r`. -/
def uniform (a b r : ℚ) : ℚ := a + (b - a) * r

/-- `random.choice(l)` with an index draw (`l` is never empty at any call site
embedded here; the `""` default mirrors nothing in the source, it only keeps
the function total). -/
def randChoice (l : List String) (idx : Nat) : String := l.getD (idx % l.length) ""

/-- claim_generator.py lines 24-34: `self.diagnosis_denial_map`. -/
def diagnosis_denial_map : String → Option (List String)
  | "E11.9" => some ["NOT_MEDICALLY_NECESSARY", "PRE_AUTH_REQUIRED", "INSUFFICIENT_INFO"]
  | "E10.9" => some ["NOT_MEDICALLY_NECESSARY", "PRE_AUTH_REQUIRED"]
  | "I10" => some ["NOT_MEDICALLY_NECESSARY", "INSUFFICIENT_INFO"]
  | "M54.5" => some ["AUTHORIZATION_REQUIRED", "PRE_AUTH_REQUIRED", "NOT_MEDICALLY_NECESSARY"]
  | "M25.561" => some ["AUTHORIZATION_REQUIRED", "PRE_AUTH_REQUIRED"]
  | "J44.1" => some ["INSUFFICIENT_INFO", "DUPLICATE_CLAIM"]
  | "J18.9" => some ["INSUFFICIENT_INFO", "TIMELY_FILING"]
  | "F41.9" => some ["PRE_AUTH_REQUIRED", "AUTHORIZATION_REQUIRED", "NOT_MEDICALLY_NECESSARY"]
  | "F32.9" => some ["PRE_AUTH_REQUIRED", "AUTHORIZATION_REQUIRED"]
  | _ => none

/-- claim_generator.py lines 36-42: `self.claim_type_denial_map`. -/
def claim_type_denial_map : String → Option (List String)
  | "INPATIENT" => some ["AUTHORIZATION_REQUIRED", "PRE_AUTH_REQUIRED", "NOT_MEDICALLY_NECESSARY"]
  | "OUTPATIENT" => some ["NOT_MEDICALLY_NECESSARY", "INSUFFICIENT_INFO", "PRE_AUTH_REQUIRED"]
  | "EMERGENCY" => some ["INSUFFICIENT_INFO", "TIMELY_FILING"]
  | "PHYSICIAN" => some ["NOT_MEDICALLY_NECESSARY", "INSUFFICIENT_INFO"]
  | "AMBULATORY" => some ["AUTHORIZATION_REQUIRED", "PRE_AUTH_REQUIRED"]
  | _ => none

/-- The `.get(key, default)` default of claim_generator.py lines 122-123. -/
def default_reasons : List String := ["INSUFFICIENT_INFO", "NOT_MEDICALLY_NECESSARY"]

/-- claim_generator.py lines 63-69: `self.charge_ranges` (a total lookup here;
`generate_claim` only ever applies it to the five generated claim types). -/
def charge_ranges : String → ℚ × ℚ
  | "INPATIENT" => (5000, 50000)
  | "EMERGENCY" => (500, 5000)
  | "OUTPATIENT" => (200, 3000)
  | "PHYSICIAN" => (100, 2000)
  | "AMBULATORY" => (300, 4000)
  | _ => (0, 0)

/-- claim_generator.py lines 90-93: `random.choices` over `claim_type_weights`
{OUTPATIENT 0.50, PHYSICIAN 0.25, EMERGENCY 0.10, INPATIENT 0.10,
AMBULATORY 0.05}, as a cumulative-distribution draw on one unit uniform. -/
def claim_type_pick (r : ℚ) : String :=
  if r < 0.50 then "OUTPATIENT"
  else if r < 0.75 then "PHYSICIAN"
  else if r < 0.85 then "EMERGENCY"
  else if r < 0.95 then "INPATIENT"
  else "AMBULATORY"

/-- claim_generator.py lines 128-129: `random.choices` over
`non_denied_weights` {APPROVED 0.80, PARTIAL 0.10, PENDING 0.08,
REJECTED 0.02}, as a cumulative-distribution draw. -/
def non_denied_status_pick (r : ℚ) : String :=
  if r < 0.80 then "APPROVED"
  else if r < 0.90 then "PARTIAL"
  else if r < 0.98 then "PENDING"
  else "REJECTED"

/-- claim_generator.py line 112: the fixed high-scrutiny diagnosis set. -/
def high_scrutiny : List String := ["E11.9", "M54.5", "F41.9", "F32.9"]

/-- claim_generator.py lines 108-117 with the RNG as an explicit stream:
each branch performs its own `random.random()` call, reading the stream at
the current index and advancing it. -/
def should_deny_rng (total_charge : ℚ) (claim_type diagnosis_code : String)
    (g : Nat → ℚ) (i : Nat) : Bool × Nat :=
  if total_charge > 10000 ∧ (claim_type = "INPATIENT" ∨ claim_type = "AMBULATORY") then
    (decide (g i < 0.25), i + 1)
  else if diagnosis_code ∈ high_scrutiny then
    (decide (g i < 0.20), i + 1)
  else if claim_type = "EMERGENCY" then
    (decide (g i < 0.05), i + 1)
  else
    (decide (g i < 0.15), i + 1)

/-- Scalar form of the denial decision (claim_generator.py lines 108-117)
applied to the single `random.random()` draw `r` it consumes. -/
def should_deny (total_charge : ℚ) (claim_type diagnosis_code : String) (r : ℚ) : Bool :=
  if total_charge > 10000 ∧ (claim_type = "INPATIENT" ∨ claim_type = "AMBULATORY") then
    decide (r < 0.25)
  else if diagnosis_code ∈ high_scrutiny then
    decide (r < 0.20)
  else if claim_type = "EMERGENCY" then
    decide (r < 0.05)
  else
    decide (r < 0.15)

/-- Modelled from the spec (§4.2 step 5): the denial probability selected by
the first matching rule of the documented precedence order.  Kept separate
from `should_deny_rng` (the source embedding) so the two can be compared. -/
def denial_prob_spec (total_charge : ℚ) (claim_type diagnosis_code : String) : ℚ :=
  if total_charge > 10000 ∧ (claim_type = "INPATIENT" ∨ claim_type = "AMBULATORY") then 0.25
  else if diagnosis_code ∈ high_scrutiny then 0.20
  else if claim_type = "EMERGENCY" then 0.05
  else 0.15

/-- claim_generator.py lines 122-124: diagnosis-map reasons, claim-type-map
reasons, their intersection (`list(set(..) & set(..))`, determinised here by
filtering the diagnosis list), with the Python `or` fallback to the diagnosis
list when the intersection is empty. -/
def candidate_reasons (diagnosis_code claim_type : String) : List String :=
  let diag_reasons := (diagnosis_denial_map diagnosis_code).getD default_reasons
  let type_reasons := (claim_type_denial_map claim_type).getD default_reasons
  let inter := diag_reasons.filter (fun x => x ∈ type_reasons)
  if inter = [] then diag_reasons else inter

/-- The per-claim random draws consumed by `generate_claim`, in source order:
`fakeDate` models `fake.date_between` (line 84), `typeRoll` the claim-type
`random.choices` draw (line 90), `losDraw` the `random.randint(1, 14)` draw
(line 101), `chargeRoll` the unit draw of `random.uniform(min, max)`
(line 106), `denyRoll` the single `random.random()` of lines 108-117,
`reasonIdx` the `random.choice` draw of line 125, `statusRoll` the
`random.choices` draw of line 129, `payRoll` the unit draw of the
`random.uniform` on line 135 or 138 (at most one of the two executes). -/
structure ClaimDraws where
  fakeDate : Nat
  typeRoll : ℚ
  losDraw : Nat
  chargeRoll : ℚ
  denyRoll : ℚ
  reasonIdx : Nat
  statusRoll : ℚ
  payRoll : ℚ
deriving Repr, DecidableEq

/-- The claim record built by `generate_claim` (ClaimSchema fields,
schemas.py lines 51-66, minus the `created_at` wall-clock timestamp). -/
structure Claim where
  claim_id : String
  patient_id : String
  provider_id : String
  claim_date : Nat
  admission_date : Option Nat
  discharge_date : Option Nat
  claim_type : String
  total_charge : ℚ
  total_paid : ℚ
  claim_status : String
  denial_reason : Option String
  primary_diagnosis_code : String
  primary_procedure_code : Option String
deriving Repr, DecidableEq, Inhabited

/-- claim_generator.py lines 105-106: charge drawn uniformly inside the
type-specific band, rounded to 2 decimals. -/
def claim_total_charge (d : ClaimDraws) : ℚ :=
  round2 (uniform (charge_ranges (claim_type_pick d.typeRoll)).1
    (charge_ranges (claim_type_pick d.typeRoll)).2 d.chargeRoll)

/-- claim_generator.py lines 108-117: the denial decision of this claim. -/
def claim_deny (diagnosis_code : String) (d : ClaimDraws) : Bool :=
  should_deny (claim_total_charge d) (claim_type_pick d.typeRoll) diagnosis_code d.denyRoll

/-- claim_generator.py lines 120-129: status is DENIED when denying, else the
weighted non-denied pick. -/
def claim_status_of (diagnosis_code : String) (d : ClaimDraws) : String :=
  if claim_deny diagnosis_code d then "DENIED" else non_denied_status_pick d.statusRoll

/-- claim_generator.py lines 120-130: the denial reason, present exactly on
the deny branch. -/
def claim_denial_reason (diagnosis_code : String) (d : ClaimDraws) : Option String :=
  if claim_deny diagnosis_code d then
    some (randChoice (candidate_reasons diagnosis_code (claim_type_pick d.typeRoll)) d.reasonIdx)
  else none

/-- claim_generator.py lines 132-146: paid amount by status (70-95% of charge
when APPROVED, 30-60% when PARTIAL, zero for DENIED/PENDING/REJECTED). -/
def claim_paid (diagnosis_code : String) (d : ClaimDraws) : ℚ :=
  if claim_status_of diagnosis_code d = "APPROVED" then
    round2 (claim_total_charge d * uniform 0.70 0.95 d.payRoll)
  else if claim_status_of diagnosis_code d = "PARTIAL" then
    round2 (claim_total_charge d * uniform 0.30 0.60 d.payRoll)
  else 0

/-- claim_generator.py lines 71-162: `ClaimGenerator.generate_claim`,
assembled from the block definitions above; the claim date defaults to the
Faker draw (lines 83-87), admission/discharge dates are set only for
INPATIENT with `los = randint(1, 14)` (lines 96-102). -/
def generate_claim (claim_id patient_id provider_id diagnosis_code : String)
    (procedure_code : Option String) (claim_date : Option Nat)
    (d : ClaimDraws) : Claim :=
  let cd := claim_date.getD d.fakeDate
  { claim_id := claim_id
    patient_id := patient_id
    provider_id := provider_id
    claim_date := cd
    admission_date := if claim_type_pick d.typeRoll = "INPATIENT" then some cd else none
    discharge_date :=
      if claim_type_pick d.typeRoll = "INPATIENT" then some (cd + (1 + d.losDraw % 14))
      else none
    claim_type := claim_type_pick d.typeRoll
    total_charge := claim_total_charge d
    total_paid := claim_paid diagnosis_code d
    claim_status := claim_status_of diagnosis_code d
    denial_reason := claim_denial_reason diagnosis_code d
    primary_diagnosis_code := diagnosis_code
    primary_procedure_code := procedure_code }

/-- Leap-year test of the proleptic Gregorian calendar. -/
def is_leap (y : Nat) : Bool := (y % 4 == 0 && y % 100 != 0) || (y % 400 == 0)

/-- Days before January 1st of year `y` (Python `date.toordinal` convention:
0001-01-01 has ordinal 1). -/
def days_before_year (y : Nat) : Nat :=
  365 * (y - 1) + (y - 1) / 4 - (y - 1) / 100 + (y - 1) / 400

/-- Days of year `y` strictly before month `m`. -/
def days_before_month (y m : Nat) : Nat :=
  [0, 31, 59, 90, 120, 151, 181, 212, 243, 273, 304, 334].getD (m - 1) 0 +
    (if 2 < m ∧ is_leap y then 1 else 0)

/-- `datetime.date(y, m, d).toordinal()`: the day ordinal used to model dates,
under which `+ timedelta(days = n)` is `+ n`. -/
def toOrdinal (y m d : Nat) : Nat := days_before_year y + days_before_month y m + d

/-! ### Schema validation (schemas.py) -/

/-- schemas.py line 70: the claim-type enumeration. -/
def valid_claim_types : List String :=
  ["INPATIENT", "OUTPATIENT", "EMERGENCY", "AMBULATORY", "PHYSICIAN"]

/-- schemas.py line 76: the claim-status enumeration. -/
def valid_statuses : List String :=
  ["APPROVED", "DENIED", "PENDING", "PARTIAL", "REJECTED"]

/-- schemas.py lines 51-83: `ClaimSchema` construction.  The declared field
validators check only that `claim_type` and `claim_status` lie in their
enumerations and that the two amounts are non-negative (rounding them to two
decimals); validation failure raises (modelled as `Except.error`). -/
def mkClaimSchema (c : Claim) : Except String Claim :=
  if c.claim_type ∉ valid_claim_types then
    Except.error "Claim type must be one of valid_types"
  else if c.claim_status ∉ valid_statuses then
    Except.error "Status must be one of valid_statuses"
  else if c.total_charge < 0 then
    Except.error "Amounts must be non-negative"
  else if c.total_paid < 0 then
    Except.error "Amounts must be non-negative"
  else
    Except.ok { c with total_charge := round2 c.total_charge,
                       total_paid := round2 c.total_paid }

/-! ### Note generation (note_generator.py) -/

/-- note_generator.py lines 24-34: `self.diagnosis_symptoms`. -/
def diagnosis_symptoms : String → Option (List String)
  | "E11.9" => some ["elevated blood glucose", "increased thirst", "frequent urination", "fatigue"]
  | "E10.9" => some ["elevated blood glucose", "weight loss", "increased thirst"]
  | "I10" => some ["elevated blood pressure", "headache", "dizziness"]
  | "M54.5" => some ["lower back pain", "radiating pain", "stiffness"]
  | "M25.561" => some ["right knee pain", "swelling", "limited range of motion"]
  | "J44.1" => some ["shortness of breath", "chronic cough", "wheezing", "chest tightness"]
  | "J18.9" => some ["fever", "cough", "shortness of breath", "chest pain"]
  | "F41.9" => some ["anxiety", "restlessness", "difficulty concentrating", "sleep disturbances"]
  | "F32.9" => some ["depressed mood", "loss of interest", "fatigue", "sleep disturbances"]
  | _ => none

/-- note_generator.py lines 36-46: `self.diagnosis_treatments`. -/
def diagnosis_treatments : String → Option (List String)
  | "E11.9" => some ["blood glucose monitoring", "diabetes medication", "dietary counseling"]
  | "E10.9" => some ["insulin therapy", "blood glucose monitoring", "diabetes education"]
  | "I10" => some ["antihypertensive medication", "blood pressure monitoring", "lifestyle counseling"]
  | "M54.5" => some ["pain management", "physical therapy", "imaging studies"]
  | "M25.561" => some ["pain medication", "knee imaging", "orthopedic consultation"]
  | "J44.1" => some ["bronchodilator therapy", "oxygen therapy", "pulmonary function tests"]
  | "J18.9" => some ["antibiotic therapy", "chest imaging", "supportive care"]
  | "F41.9" => some ["anxiety medication", "counseling", "psychiatric evaluation"]
  | "F32.9" => some ["antidepressant medication", "psychotherapy", "psychiatric evaluation"]
  | _ => none

/-- note_generator.py lines 48-55: `self.denial_explanations`. -/
def denial_explanations : String → Option String
  | "INSUFFICIENT_INFO" =>
    some "Claim denied due to missing or incomplete documentation required for processing."
  | "NOT_MEDICALLY_NECESSARY" =>
    some "Services were determined not to be medically necessary based on clinical guidelines."
  | "DUPLICATE_CLAIM" => some "Claim denied as duplicate of previously submitted claim."
  | "AUTHORIZATION_REQUIRED" =>
    some "Prior authorization was required but not obtained before service delivery."
  | "PRE_AUTH_REQUIRED" => some "Pre-authorization was required but not obtained."
  | "TIMELY_FILING" => some "Claim submitted outside of timely filing window."
  | _ => none

/-- note_generator.py lines 57-60: `self.assessments`. -/
def assessments : List String :=
  ["stable condition", "improving", "deteriorating", "critical", "guarded",
   "fair", "good", "poor", "acute", "chronic", "subacute"]

/-- The random draws consumed by one `generate_note` call: the six vital-sign
values of `generate_vital_signs` (lines 68-77), the symptom / treatment /
assessment `random.choice` index draws, the `random.random()` trend draw of
the progress note (line 147), the `random.random()` of the 30% denial-note
branch (line 241), and the `random.choice` index for the INPATIENT note type
(line 245). -/
structure NoteDraws where
  systolic : Nat
  diastolic : Nat
  hr : Nat
  rr : Nat
  o2 : Nat
  temp : ℚ
  symptomIdx : Nat
  treatmentIdx : Nat
  assessmentIdx : Nat
  trendRoll : ℚ
  typeRoll : ℚ
  inpatientTypeIdx : Nat
deriving Repr

/-- The note record (NoteSchema, schemas.py lines 86-92, minus the
`created_at` wall-clock timestamp). -/
structure Note where
  note_id : String
  claim_id : String
  note_type : String
  note_text : String
deriving Repr, DecidableEq

/-- Digit grouping by thousands (the `,` of Python's `{:,.2f}` format). -/
def group3 (ds : List Char) : List Char :=
  if ds.length ≤ 3 then ds
  else ds.take 3 ++ [','] ++ group3 (ds.drop 3)
termination_by ds.length
decreasing_by simp [List.length_drop]; omega

/-- Two-digit zero padding. -/
def pad2 (n : Nat) : String := if n < 10 then "0" ++ toString n else toString n

/-- Four-digit zero padding. -/
def pad4 (n : Nat) : String :=
  if n < 10 then "000" ++ toString n
  else if n < 100 then "00" ++ toString n
  else if n < 1000 then "0" ++ toString n
  else toString n

/-- Civil date (year, month, day) from a day ordinal (inverse of
`toOrdinal`, Hinnant's civil-from-days algorithm shifted to the Python
`toordinal` convention). -/
def civil_from_ordinal (n : Nat) : Nat × Nat × Nat :=
  let z := n + 305
  let era := z / 146097
  let doe := z % 146097
  let yoe := (doe - doe / 1460 + doe / 36524 - doe / 146096) / 365
  let y := yoe + era * 400
  let doy := doe - (365 * yoe + yoe / 4 - yoe / 100)
  let mp := (5 * doy + 2) / 153
  let dd := doy - (153 * mp + 2) / 5 + 1
  let m := if mp < 10 then mp + 3 else mp - 9
  (if m ≤ 2 then y + 1 else y, m, dd)

/-- `date.strftime('%Y-%m-%d')` on a day ordinal. -/
def formatDate (n : Nat) : String :=
  let c := civil_from_ordinal n
  pad4 c.1 ++ "-" ++ pad2 c.2.1 ++ "-" ++ pad2 c.2.2

/-- Python `f"{x:,.2f}"` on a (non-negative) rational amount. -/
def formatMoney (q : ℚ) : String :=
  let c := (round (q * 100)).toNat
  String.mk ((group3 (toString (c / 100)).data.reverse).reverse) ++ "." ++ pad2 (c % 100)

/-- Rendering of the one-decimal temperature draw interpolated into the
vital-signs templates. -/
def formatQ1 (q : ℚ) : String :=
  let t := (round (q * 10)).toNat
  toString (t / 10) ++ "." ++ toString (t % 10)

/-- note_generator.py line 63: `self.vital_signs_templates[0]`. -/
def vital_signs_template0 (d : NoteDraws) : String :=
  "BP " ++ toString d.systolic ++ "/" ++ toString d.diastolic ++ ", HR " ++ toString d.hr ++
    ", RR " ++ toString d.rr ++ ", Temp " ++ formatQ1 d.temp ++ "F, O2 Sat " ++
    toString d.o2 ++ "%"

/-- note_generator.py line 64: `self.vital_signs_templates[1]`. -/
def vital_signs_template1 (d : NoteDraws) : String :=
  "Vitals: " ++ toString d.systolic ++ "/" ++ toString d.diastolic ++ " mmHg, " ++
    toString d.hr ++ " bpm, " ++ formatQ1 d.temp ++ "F"

/-- The denial-context block repeated in note_generator.py lines 88-91,
119-122, 150-153 and 177-180: present exactly when the claim status is
DENIED and a denial reason is set. -/
def denial_context (c : Claim) : String :=
  match c.denial_reason with
  | some r =>
    if c.claim_status = "DENIED" then
      "\n\nCLAIM STATUS:\nThis claim was denied. Reason: " ++
        ((denial_explanations r).getD "Claim was denied.")
    else ""
  | none => ""

/-- note_generator.py lines 79-110: `generate_admission_note`. -/
def generate_admission_note (c : Claim) (d : NoteDraws) : String :=
  let symptoms_list := (diagnosis_symptoms c.primary_diagnosis_code).getD ["generalized symptoms"]
  let treatments_list :=
    (diagnosis_treatments c.primary_diagnosis_code).getD ["symptomatic treatment"]
  let symptom := randChoice symptoms_list d.symptomIdx
  let treatment := randChoice treatments_list d.treatmentIdx
  let assessment := randChoice assessments d.assessmentIdx
  "ADMISSION NOTE\n\nPatient admitted on " ++
    formatDate (c.admission_date.getD c.claim_date) ++
    ".\n\nCHIEF COMPLAINT:\nPatient presents with " ++ symptom ++
    ".\n\nVITAL SIGNS:\n" ++ vital_signs_template0 d ++
    "\n\nASSESSMENT:\nPatient is in " ++ assessment ++
    " condition. Primary diagnosis: " ++ c.primary_diagnosis_code ++ ".\n" ++
    denial_context c ++ "\n\nPLAN:\n" ++ treatment ++
    ". Continue monitoring and reassess as needed."

/-- note_generator.py lines 112-139: `generate_discharge_note`. -/
def generate_discharge_note (c : Claim) (d : NoteDraws) : String :=
  let assessment := randChoice assessments d.assessmentIdx
  let treatments_list :=
    (diagnosis_treatments c.primary_diagnosis_code).getD ["symptomatic treatment"]
  let treatment_provided := randChoice treatments_list d.treatmentIdx
  let procedure_info :=
    match c.primary_procedure_code with
    | some p => " Procedure performed: CPT " ++ p ++ "."
    | none => ""
  "DISCHARGE SUMMARY\n\nPatient discharged on " ++
    formatDate (c.discharge_date.getD c.claim_date) ++
    ".\n\nHOSPITAL COURSE:\nPatient was admitted for treatment of " ++
    c.primary_diagnosis_code ++ "." ++ procedure_info ++
    "\nDuring hospitalization, patient received " ++ treatment_provided ++
    " and showed improvement.\n\nDISCHARGE CONDITION:\nPatient is in " ++ assessment ++
    " condition at time of discharge." ++ denial_context c ++
    "\n\nDISCHARGE INSTRUCTIONS:\nFollow-up with primary care provider within 7-10 days. Continue medications as prescribed.\nReturn to emergency department if symptoms worsen."

/-- note_generator.py lines 141-169: `generate_progress_note`. -/
def generate_progress_note (c : Claim) (d : NoteDraws) : String :=
  let symptoms_list := (diagnosis_symptoms c.primary_diagnosis_code).getD ["generalized symptoms"]
  let treatments_list :=
    (diagnosis_treatments c.primary_diagnosis_code).getD ["symptomatic treatment"]
  let assessment := randChoice assessments d.assessmentIdx
  let symptom_status :=
    if d.trendRoll > 0.3 then "improvement"
    else "persistent " ++ randChoice symptoms_list d.symptomIdx
  let treatment := randChoice treatments_list d.treatmentIdx
  "PROGRESS NOTE - " ++ formatDate c.claim_date ++
    "\n\nSUBJECTIVE:\nPatient reports " ++ symptom_status ++
    " in symptoms related to " ++ c.primary_diagnosis_code ++
    ".\n\nOBJECTIVE:\nVital signs: " ++ vital_signs_template1 d ++
    "\n\nASSESSMENT:\nPatient condition is " ++ assessment ++ ". Diagnosis: " ++
    c.primary_diagnosis_code ++ "." ++ denial_context c ++
    "\n\nPLAN:\nContinue " ++ treatment ++ ". Monitor response and reassess as needed."

/-- note_generator.py lines 171-197: `generate_procedure_note`. -/
def generate_procedure_note (c : Claim) (d : NoteDraws) : String :=
  let procedure_code := c.primary_procedure_code.getD "N/A"
  let symptoms_list := (diagnosis_symptoms c.primary_diagnosis_code).getD ["generalized symptoms"]
  let indication_symptom := randChoice symptoms_list d.symptomIdx
  "PROCEDURE NOTE - " ++ formatDate c.claim_date ++
    "\n\nPROCEDURE:\nCPT Code: " ++ procedure_code ++
    "\n\nINDICATION:\nProcedure performed for diagnosis and treatment of " ++
    c.primary_diagnosis_code ++ ". \nPatient presented with " ++ indication_symptom ++
    ".\n\nPROCEDURE DESCRIPTION:\nProcedure was performed successfully without complications. Patient tolerated procedure well." ++
    denial_context c ++
    "\n\nPOST-PROCEDURE:\nPatient is stable. Monitor for any complications. Follow-up as indicated for " ++
    c.primary_diagnosis_code ++ "."

/-- note_generator.py lines 199-230: `generate_denial_note` (falls back to a
progress note when the claim has no denial reason). -/
def generate_denial_note (c : Claim) (d : NoteDraws) : String :=
  match c.denial_reason with
  | none => generate_progress_note c d
  | some r =>
    let denial_explanation := (denial_explanations r).getD "Claim was denied."
    let diagnosis_info := "Diagnosis: " ++ c.primary_diagnosis_code ++
      (match c.primary_procedure_code with
       | some p => ", Procedure: CPT " ++ p
       | none => "")
    "CLAIM DENIAL NOTICE - " ++ formatDate c.claim_date ++
      "\n\nCLAIM INFORMATION:\nClaim ID: " ++ c.claim_id ++ "\n" ++ diagnosis_info ++
      "\nClaim Type: " ++ c.claim_type ++ "\nTotal Charge: $" ++
      formatMoney c.total_charge ++ "\n\nDENIAL REASON:\n" ++ denial_explanation ++
      "\n\nDETAILS:\nThis claim was reviewed and denied based on the above reason. \n" ++
      diagnosis_info ++ " was submitted for this claim." ++
      "\n\nNEXT STEPS:\nProvider may submit additional documentation or appeal this denial if additional \ninformation is available that supports medical necessity or addresses the denial reason."

/-- note_generator.py lines 239-249: note-type selection when no type is
supplied (30% DIAGNOSIS for denied claims, else by claim type / procedure
presence). -/
def note_type_of (c : Claim) (note_type : Option String) (d : NoteDraws) : String :=
  match note_type with
  | some t => t
  | none =>
    if c.claim_status = "DENIED" ∧ d.typeRoll < 0.3 then "DIAGNOSIS"
    else if c.claim_type = "INPATIENT" then
      randChoice ["ADMISSION", "DISCHARGE", "PROGRESS"] d.inpatientTypeIdx
    else if c.primary_procedure_code ≠ none then "PROCEDURE"
    else "PROGRESS"

/-- note_generator.py lines 251-262: note-text dispatch on the (resolved)
note type; a DIAGNOSIS request on a non-denied claim falls through to the
PROGRESS branch. -/
def note_text_of (c : Claim) (nt : String) (d : NoteDraws) : String :=
  if nt = "ADMISSION" then generate_admission_note c d
  else if nt = "DISCHARGE" then generate_discharge_note c d
  else if nt = "PROCEDURE" then generate_procedure_note c d
  else if nt = "DIAGNOSIS" ∧ c.claim_status = "DENIED" then generate_denial_note c d
  else generate_progress_note c d

/-- note_generator.py lines 232-269: `NoteGenerator.generate_note`. -/
def generate_note (note_id : String) (c : Claim) (note_type : Option String)
    (d : NoteDraws) : Note :=
  { note_id := note_id
    claim_id := c.claim_id
    note_type := note_type_of c note_type d
    note_text := note_text_of c (note_type_of c note_type d) d }

/-- note_generator.py lines 271-289: `generate_notes` — exactly
`notes_per_claim` notes per claim in claim order, ids from a monotonic
counter (`range(n)` of a Python int iterates `max n 0` times, hence
`Int.toNat`). -/
def generate_notes (claims : List Claim) (notes_per_claim : Int) (start_id : Nat)
    (nd : Nat → NoteDraws) : List Note :=
  let npc := notes_per_claim.toNat
  (List.range (claims.length * npc)).map fun k =>
    generate_note ("NOTE" ++ toString (start_id + k)) (claims.getD (k / npc) default)
      none (nd k)

/-- patient_generator.py lines 65-71: `generate_patients`, at the granularity
the orchestrator claims need — one record per loop iteration with id
`PAT{start_id + i}`; the demographic fields play no role in any claim here. -/
def generate_patients (count : Int) (start_id : Nat) : List String :=
  (List.range count.toNat).map fun i => "PAT" ++ toString (start_id + i)

/-- provider_generator.py lines 106-112: `generate_providers`, likewise
reduced to the provider ids `PROV{start_id + i}`. -/
def generate_providers (count : Int) (start_id : Nat) : List String :=
  (List.range count.toNat).map fun i => "PROV" ++ toString (start_id + i)

/-- The random draws consumed by the bulk loop of
claim_generator.py lines 177-193, indexed by the flat iteration counter:
provider / diagnosis / procedure `random.choice` index draws, the
`random.random()` of the 70% procedure-presence test, and the per-claim
draws. -/
structure BulkDraws where
  provIdx : Nat → Nat
  diagIdx : Nat → Nat
  procIdx : Nat → Nat
  procRoll : Nat → ℚ
  claim : Nat → ClaimDraws

/-- `random.choice` on a possibly-empty list: raises IndexError on an empty
sequence (modelled as `Except.error`). -/
def randChoiceE (l : List String) (idx : Nat) : Except String String :=
  if l = [] then Except.error "IndexError: Cannot choose from an empty sequence"
  else Except.ok (randChoice l idx)

/-- claim_generator.py lines 164-195: `ClaimGenerator.generate_claims` —
exactly `claims_per_patient` claims per patient (flattened to one index
`k`, with patient `k / cpp`), each sampling a provider, a diagnosis code and
(with probability 0.70) a procedure code, ids `CLM{start_id + k}`. -/
def generate_claims (patients providers diagnosis_codes procedure_codes : List String)
    (claims_per_patient : Int) (start_id : Nat) (b : BulkDraws) :
    Except String (List Claim) :=
  let cpp := claims_per_patient.toNat
  (List.range (patients.length * cpp)).mapM fun k => do
    let patient := patients.getD (k / cpp) ""
    let provider ← randChoiceE providers (b.provIdx k)
    let diagnosis ← randChoiceE diagnosis_codes (b.diagIdx k)
    let procedure ←
      if b.procRoll k > 0.3 then do
        let p ← randChoiceE procedure_codes (b.procIdx k)
        pure (some p)
      else pure none
    pure (generate_claim ("CLM" ++ toString (start_id + k)) patient provider diagnosis
      procedure none (b.claim k))

/-- generate_data.py lines 57-105: `DataGenerator.generate_core_data` —
patients, then providers, then claims, then notes, with no validation of the
generation parameters on entry. -/
def generate_core_data (num_patients num_providers claims_per_patient notes_per_claim : Int)
    (icd10_codes cpt_codes : List String) (b : BulkDraws) (nd : Nat → NoteDraws) :
    Except String (List String × List String × List Claim × List Note) := do
  let patients := generate_patients num_patients 100000
  let providers := generate_providers num_providers 10000
  let claims ← generate_claims patients providers icd10_codes cpt_codes
    claims_per_patient 1000000 b
  let notes := generate_notes claims notes_per_claim 100000 nd
  pure (patients, providers, claims, notes)

/-! ### Seeding (C8) -/

/-- Model of the stdlib PRNG output stream after `random.seed(s)` /
`Faker.seed(s)`: an unspecified but fixed function of the seed alone (the
concrete formula is irrelevant; only its independence from ambient state
matters). -/
def mk_seeded (s : Int) : Nat → Nat := fun n => (s.natAbs + n) * 2654435761 % 4294967296

/-- The `if seed:` guard shared by every generator constructor
(claim_generator.py lines 17-21, patient_generator.py lines 18-22,
provider_generator.py lines 17-21, note_generator.py lines 17-21, reached
from generate_data.py lines 27-38): `None` and `0` are falsy in Python, so
seeding is skipped and the ambient global RNG state is kept. -/
def seeded_stream (seed : Option Int) (ambient : Nat → Nat) : Nat → Nat :=
  match seed with
  | some s => if s ≠ 0 then mk_seeded s else ambient
  | none => ambient

/-- Unit-interval draw derived from the integer stream. -/
def rollQ (g : Nat → Nat) (i : Nat) : ℚ := ((g i % 1000 : Nat) : ℚ) / 1000

/-- The draw extraction for one `generate_claim` call from the (seeded or
ambient) stream, at fixed positions. -/
def claim_draws_at (g : Nat → Nat) (k : Nat) : ClaimDraws :=
  { fakeDate := g (8 * k)
    typeRoll := rollQ g (8 * k + 1)
    losDraw := g (8 * k + 2)
    chargeRoll := rollQ g (8 * k + 3)
    denyRoll := rollQ g (8 * k + 4)
    reasonIdx := g (8 * k + 5)
    statusRoll := rollQ g (8 * k + 6)
    payRoll := rollQ g (8 * k + 7) }

/-- One run of the contract's call sequence up to its first claim: construct
the generators with `seed` over ambient RNG state `ambient`, then generate
the first claim. -/
def run_first_claim (seed : Option Int) (ambient : Nat → Nat) : Claim :=
  let g := seeded_stream seed ambient
  generate_claim "CLM1000000" "PAT100000" "PROV10000" "I10" none none (claim_draws_at g 0)

/-- `pat` occurs as a contiguous substring of `s`. -/
def containsStr (s pat : String) : Prop := ∃ a b, s.data = a ++ pat.data ++ b

/-- The §8 spec scenario claim: status DENIED with denial reason
TIMELY_FILING. -/
def tf_claim : Claim :=
  { claim_id := "CLM1000042"
    patient_id := "PAT100001"
    provider_id := "PROV10001"
    claim_date := toOrdinal 2024 3 5
    admission_date := none
    discharge_date := none
    claim_type := "EMERGENCY"
    total_charge := 1200
    total_paid := 0
    claim_status := "DENIED"
    denial_reason := some "TIMELY_FILING"
    primary_diagnosis_code := "J18.9"
    primary_procedure_code := none }

lemma non_denied_status_pick_ne_denied (r : ℚ) : non_denied_status_pick r ≠ "DENIED" := by
  unfold non_denied_status_pick
  split_ifs <;> decide

lemma diag_reasons_ne_nil (dc : String) :
    (diagnosis_denial_map dc).getD default_reasons ≠ [] := by
  unfold diagnosis_denial_map
  split <;> simp [default_reasons]

lemma candidate_reasons_ne_nil (dc ct : String) : candidate_reasons dc ct ≠ [] := by
  unfold candidate_reasons
  dsimp only
  split
  · exact diag_reasons_ne_nil dc
  · assumption

lemma randChoice_mem (l : List String) (idx : Nat) (h : l ≠ []) :
    randChoice l idx ∈ l := by
  have hlen : 0 < l.length := List.length_pos.mpr h
  have hm : idx % l.length < l.length := Nat.mod_lt _ hlen
  unfold randChoice
  rw [List.getD_eq_getElem _ _ hm]
  exact List.getElem_mem _

lemma round2_le_add (q : ℚ) : round2 q ≤ q + 1 / 200 := by
  have h := abs_sub_round (q * 100)
  rw [abs_le] at h
  unfold round2
  have h2 := h.2
  linarith

lemma sub_le_round2 (q : ℚ) : q - 1 / 200 ≤ round2 q := by
  have h := abs_sub_round (q * 100)
  rw [abs_le] at h
  unfold round2
  have h1 := h.1
  linarith

lemma round2_nonneg {q : ℚ} (h : 0 ≤ q) : 0 ≤ round2 q := by
  have hr : (0 : ℤ) ≤ round (q * 100) := by
    rw [round_eq]
    exact Int.floor_nonneg.mpr (by linarith)
  unfold round2
  have : (0 : ℚ) ≤ (round (q * 100) : ℤ) := by exact_mod_cast hr
  linarith

lemma uniform_le {a b r : ℚ} (hab : a ≤ b) (h1 : r ≤ 1) : uniform a b r ≤ b := by
  unfold uniform
  nlinarith

lemma le_uniform {a b r : ℚ} (hab : a ≤ b) (h0 : 0 ≤ r) : a ≤ uniform a b r := by
  unfold uniform
  nlinarith

lemma charge_ranges_bounds (r : ℚ) :
    100 ≤ (charge_ranges (claim_type_pick r)).1 ∧
      (charge_ranges (claim_type_pick r)).1 ≤ (charge_ranges (claim_type_pick r)).2 := by
  unfold claim_type_pick
  split_ifs <;> constructor <;> norm_num [charge_ranges]

lemma claim_total_charge_ge (d : ClaimDraws)
    (h0 : 0 ≤ d.chargeRoll) (h1 : d.chargeRoll ≤ 1) : 99 ≤ claim_total_charge d := by
  obtain ⟨hm, hab⟩ := charge_ranges_bounds d.typeRoll
  have hu := le_uniform (r := d.chargeRoll) hab h0
  have hrd := sub_le_round2 (uniform (charge_ranges (claim_type_pick d.typeRoll)).1
    (charge_ranges (claim_type_pick d.typeRoll)).2 d.chargeRoll)
  unfold claim_total_charge
  linarith

lemma claim_status_cases (dc : String) (d : ClaimDraws) :
    claim_status_of dc d = "DENIED" ∨ claim_status_of dc d = "APPROVED" ∨
      claim_status_of dc d = "PARTIAL" ∨ claim_status_of dc d = "PENDING" ∨
      claim_status_of dc d = "REJECTED" := by
  unfold claim_status_of non_denied_status_pick
  split_ifs <;> simp

lemma data_append (s t : String) : (s ++ t).data = s.data ++ t.data := rfl

lemma containsStr_self (s : String) : containsStr s s := ⟨[], [], by simp⟩

lemma containsStr_append_right {s pat : String} (t : String) (h : containsStr s pat) :
    containsStr (s ++ t) pat := by
  obtain ⟨a, b, hab⟩ := h
  exact ⟨a, b ++ t.data, by simp [data_append, hab]⟩

lemma containsStr_append_left {s pat : String} (t : String) (h : containsStr s pat) :
    containsStr (t ++ s) pat := by
  obtain ⟨a, b, hab⟩ := h
  exact ⟨t.data ++ a, b, by simp [data_append, hab]⟩

lemma denial_context_contains {c : Claim} {r : String} (hs : c.claim_status = "DENIED")
    (hr : c.denial_reason = some r) :
    containsStr (denial_context c) ((denial_explanations r).getD "Claim was denied.") := by
  unfold denial_context
  rw [hr]
  dsimp only
  rw [if_pos hs]
  exact containsStr_append_left _ (containsStr_self _)

lemma admission_contains_code (c : Claim) (d : NoteDraws) :
    containsStr (generate_admission_note c d) c.primary_diagnosis_code := by
  unfold generate_admission_note
  dsimp only
  iterate 5 apply containsStr_append_right
  apply containsStr_append_left
  exact containsStr_self _

lemma admission_contains_expl {c : Claim} {r : String} (d : NoteDraws)
    (hs : c.claim_status = "DENIED") (hr : c.denial_reason = some r) :
    containsStr (generate_admission_note c d)
      ((denial_explanations r).getD "Claim was denied.") := by
  unfold generate_admission_note
  dsimp only
  iterate 3 apply containsStr_append_right
  apply containsStr_append_left
  exact denial_context_contains hs hr

lemma discharge_contains_code (c : Claim) (d : NoteDraws) :
    containsStr (generate_discharge_note c d) c.primary_diagnosis_code := by
  unfold generate_discharge_note
  dsimp only
  iterate 9 apply containsStr_append_right
  apply containsStr_append_left
  exact containsStr_self _

lemma discharge_contains_expl {c : Claim} {r : String} (d : NoteDraws)
    (hs : c.claim_status = "DENIED") (hr : c.denial_reason = some r) :
    containsStr (generate_discharge_note c d)
      ((denial_explanations r).getD "Claim was denied.") := by
  unfold generate_discharge_note
  dsimp only
  iterate 1 apply containsStr_append_right
  apply containsStr_append_left
  exact denial_context_contains hs hr

lemma progress_contains_code (c : Claim) (d : NoteDraws) :
    containsStr (generate_progress_note c d) c.primary_diagnosis_code := by
  unfold generate_progress_note
  dsimp only
  iterate 5 apply containsStr_append_right
  apply containsStr_append_left
  exact containsStr_self _

lemma progress_contains_expl {c : Claim} {r : String} (d : NoteDraws)
    (hs : c.claim_status = "DENIED") (hr : c.denial_reason = some r) :
    containsStr (generate_progress_note c d)
      ((denial_explanations r).getD "Claim was denied.") := by
  unfold generate_progress_note
  dsimp only
  iterate 3 apply containsStr_append_right
  apply containsStr_append_left
  exact denial_context_contains hs hr

lemma procedure_contains_code (c : Claim) (d : NoteDraws) :
    containsStr (generate_procedure_note c d) c.primary_diagnosis_code := by
  unfold generate_procedure_note
  dsimp only
  iterate 1 apply containsStr_append_right
  apply containsStr_append_left
  exact containsStr_self _

lemma procedure_contains_expl {c : Claim} {r : String} (d : NoteDraws)
    (hs : c.claim_status = "DENIED") (hr : c.denial_reason = some r) :
    containsStr (generate_procedure_note c d)
      ((denial_explanations r).getD "Claim was denied.") := by
  unfold generate_procedure_note
  dsimp only
  iterate 3 apply containsStr_append_right
  apply containsStr_append_left
  exact denial_context_contains hs hr

lemma denial_note_contains_expl {c : Claim} {r : String} (d : NoteDraws)
    (hr : c.denial_reason = some r) :
    containsStr (generate_denial_note c d)
      ((denial_explanations r).getD "Claim was denied.") := by
  unfold generate_denial_note
  rw [hr]
  dsimp only
  iterate 4 apply containsStr_append_right
  apply containsStr_append_left
  exact containsStr_self _

lemma denial_note_contains_id {c : Claim} {r : String} (d : NoteDraws)
    (hr : c.denial_reason = some r) :
    containsStr (generate_denial_note c d) c.claim_id := by
  unfold generate_denial_note
  rw [hr]
  dsimp only
  iterate 12 apply containsStr_append_right
  apply containsStr_append_left
  exact containsStr_self _

lemma denial_note_contains_code (c : Claim) (d : NoteDraws) :
    containsStr (generate_denial_note c d) c.primary_diagnosis_code := by
  unfold generate_denial_note
  cases hr : c.denial_reason with
  | none => exact progress_contains_code c d
  | some r =>
    dsimp only
    iterate 2 apply containsStr_append_right
    apply containsStr_append_left
    apply containsStr_append_right
    apply containsStr_append_left
    exact containsStr_self _

lemma note_text_contains_code (c : Claim) (nt : String) (d : NoteDraws) :
    containsStr (note_text_of c nt d) c.primary_diagnosis_code := by
  unfold note_text_of
  split_ifs
  · exact admission_contains_code c d
  · exact discharge_contains_code c d
  · exact procedure_contains_code c d
  · exact denial_note_contains_code c d
  · exact progress_contains_code c d

lemma note_text_contains_expl {c : Claim} {r : String} (nt : String) (d : NoteDraws)
    (hs : c.claim_status = "DENIED") (hr : c.denial_reason = some r) :
    containsStr (note_text_of c nt d)
      ((denial_explanations r).getD "Claim was denied.") := by
  unfold note_text_of
  split_ifs
  · exact admission_contains_expl d hs hr
  · exact discharge_contains_expl d hs hr
  · exact procedure_contains_expl d hs hr
  · exact denial_note_contains_expl d hr
  · exact progress_contains_expl d hs hr

end HCIA

/-- C1: for every claim returned by `ClaimGenerator.generate_claim` (any
patient, provider, diagnosis code, optional procedure code, optional service
date, and any random draws), `denial_reason` is non-null if and only if
`claim_status` is `DENIED`. -/
theorem C1_denial_reason_iff_denied
    (cid pid prid dc : String) (proc : Option String) (cdate : Option Nat)
    (d : HCIA.ClaimDraws) :
    (HCIA.generate_claim cid pid prid dc proc cdate d).denial_reason ≠ none ↔
      (HCIA.generate_claim cid pid prid dc proc cdate d).claim_status = "DENIED" := by
  show HCIA.claim_denial_reason dc d ≠ none ↔ HCIA.claim_status_of dc d = "DENIED"
  unfold HCIA.claim_denial_reason HCIA.claim_status_of
  by_cases h : HCIA.claim_deny dc d = true
  · simp [h]
  · simp [h, HCIA.non_denied_status_pick_ne_denied]

/-- C2: the denial decision of `generate_claim` (claim_generator.py lines
108-117) is made by the first matching rule in precedence order — charge
over 10000 with INPATIENT/AMBULATORY type at probability 0.25, then the
high-scrutiny diagnosis set at 0.20, then EMERGENCY at 0.05, else 0.15 —
and it consumes exactly one `random.random()` draw (the returned index is
`i + 1`) compared against the selected probability; later rules are never
consulted. -/
theorem C2_first_matching_rule_one_draw (tc : ℚ) (ct dc : String)
    (g : Nat → ℚ) (i : Nat) :
    HCIA.should_deny_rng tc ct dc g i =
      (decide (g i < HCIA.denial_prob_spec tc ct dc), i + 1) := by
  unfold HCIA.should_deny_rng HCIA.denial_prob_spec
  split_ifs <;> rfl

/-- C3: when `generate_claim` denies, the denial reason is chosen from the
candidate set `candidate_reasons` — the intersection of the
diagnosis-associated and claim-type-associated reason sets (each defaulting
to {INSUFFICIENT_INFO, NOT_MEDICALLY_NECESSARY} when unmapped), falling back
to the diagnosis-associated set when the intersection is empty (uniformity of
`random.choice` is modelled at support level: every index draw lands in the
candidate set).  In particular for diagnosis E11.9 with claim type OUTPATIENT
the chosen reason is one of {NOT_MEDICALLY_NECESSARY, PRE_AUTH_REQUIRED,
INSUFFICIENT_INFO} and never AUTHORIZATION_REQUIRED. -/
theorem C3_denial_reason_candidates (dc ct : String) (idx : Nat) :
    HCIA.randChoice (HCIA.candidate_reasons dc ct) idx ∈ HCIA.candidate_reasons dc ct ∧
    ((∃ x ∈ (HCIA.diagnosis_denial_map dc).getD HCIA.default_reasons,
        x ∈ (HCIA.claim_type_denial_map ct).getD HCIA.default_reasons) →
      HCIA.randChoice (HCIA.candidate_reasons dc ct) idx ∈
          (HCIA.diagnosis_denial_map dc).getD HCIA.default_reasons ∧
        HCIA.randChoice (HCIA.candidate_reasons dc ct) idx ∈
          (HCIA.claim_type_denial_map ct).getD HCIA.default_reasons) ∧
    ((¬ ∃ x ∈ (HCIA.diagnosis_denial_map dc).getD HCIA.default_reasons,
        x ∈ (HCIA.claim_type_denial_map ct).getD HCIA.default_reasons) →
      HCIA.randChoice (HCIA.candidate_reasons dc ct) idx ∈
        (HCIA.diagnosis_denial_map dc).getD HCIA.default_reasons) ∧
    HCIA.randChoice (HCIA.candidate_reasons "E11.9" "OUTPATIENT") idx ∈
      ["NOT_MEDICALLY_NECESSARY", "PRE_AUTH_REQUIRED", "INSUFFICIENT_INFO"] ∧
    HCIA.randChoice (HCIA.candidate_reasons "E11.9" "OUTPATIENT") idx ≠
      "AUTHORIZATION_REQUIRED" := by
  have base := HCIA.randChoice_mem _ idx (HCIA.candidate_reasons_ne_nil dc ct)
  have hsc : HCIA.candidate_reasons "E11.9" "OUTPATIENT" =
      ["NOT_MEDICALLY_NECESSARY", "PRE_AUTH_REQUIRED", "INSUFFICIENT_INFO"] := by decide
  have hscmem := HCIA.randChoice_mem _ idx
    (HCIA.candidate_reasons_ne_nil "E11.9" "OUTPATIENT")
  rw [hsc] at hscmem
  refine ⟨base, ?_, ?_, hscmem, ?_⟩
  · rintro ⟨x, hxd, hxt⟩
    have hne : ((HCIA.diagnosis_denial_map dc).getD HCIA.default_reasons).filter
        (fun y => y ∈ (HCIA.claim_type_denial_map ct).getD HCIA.default_reasons) ≠ [] := by
      intro hnil
      rw [List.filter_eq_nil_iff] at hnil
      exact hnil x hxd (by simpa using hxt)
    have hcand : HCIA.candidate_reasons dc ct =
        ((HCIA.diagnosis_denial_map dc).getD HCIA.default_reasons).filter
          (fun y => y ∈ (HCIA.claim_type_denial_map ct).getD HCIA.default_reasons) := by
      unfold HCIA.candidate_reasons
      dsimp only
      rw [if_neg hne]
    rw [hcand] at base ⊢
    have := List.mem_filter.mp base
    exact ⟨this.1, by simpa using this.2⟩
  · intro hno
    have hnil : ((HCIA.diagnosis_denial_map dc).getD HCIA.default_reasons).filter
        (fun y => y ∈ (HCIA.claim_type_denial_map ct).getD HCIA.default_reasons) = [] := by
      rw [List.filter_eq_nil_iff]
      intro a ha hat
      exact hno ⟨a, ha, by simpa using hat⟩
    have hcand : HCIA.candidate_reasons dc ct =
        (HCIA.diagnosis_denial_map dc).getD HCIA.default_reasons := by
      unfold HCIA.candidate_reasons
      dsimp only
      rw [if_pos hnil]
    rw [hcand] at base ⊢
    exact base
  · have h' : HCIA.randChoice (HCIA.candidate_reasons "E11.9" "OUTPATIENT") idx =
          "NOT_MEDICALLY_NECESSARY" ∨
        HCIA.randChoice (HCIA.candidate_reasons "E11.9" "OUTPATIENT") idx =
          "PRE_AUTH_REQUIRED" ∨
        HCIA.randChoice (HCIA.candidate_reasons "E11.9" "OUTPATIENT") idx =
          "INSUFFICIENT_INFO" := by
      simpa using hscmem
    rcases h' with h | h | h <;> simp [h]

/-- Witness for C3 at diagnosis E11.9, claim type OUTPATIENT, index draw 0. -/
theorem C3_denial_reason_candidates_witness :
    HCIA.randChoice (HCIA.candidate_reasons "E11.9" "OUTPATIENT") 0 ∈
        (HCIA.diagnosis_denial_map "E11.9").getD HCIA.default_reasons ∧
      HCIA.randChoice (HCIA.candidate_reasons "E11.9" "OUTPATIENT") 0 ∈
        (HCIA.claim_type_denial_map "OUTPATIENT").getD HCIA.default_reasons :=
  (C3_denial_reason_candidates "E11.9" "OUTPATIENT" 0).2.1
    ⟨"NOT_MEDICALLY_NECESSARY", by decide, by decide⟩

/-- C4: for every claim returned by `generate_claim` (with the unit uniform
draws in range), `total_paid` is 0 when the status is DENIED, PENDING or
REJECTED; it is the charge times a uniform draw in [0.70, 0.95] rounded to 2
decimals when APPROVED; the charge times a uniform draw in [0.30, 0.60]
rounded to 2 decimals when PARTIAL; and in all cases
`0 ≤ total_paid ≤ total_charge`. -/
theorem C4_payment_by_status (cid pid prid dc : String) (proc : Option String)
    (cdate : Option Nat) (d : HCIA.ClaimDraws)
    (hc0 : 0 ≤ d.chargeRoll) (hc1 : d.chargeRoll ≤ 1)
    (hp0 : 0 ≤ d.payRoll) (hp1 : d.payRoll ≤ 1) :
    ((HCIA.generate_claim cid pid prid dc proc cdate d).claim_status = "DENIED" ∨
        (HCIA.generate_claim cid pid prid dc proc cdate d).claim_status = "PENDING" ∨
        (HCIA.generate_claim cid pid prid dc proc cdate d).claim_status = "REJECTED" →
      (HCIA.generate_claim cid pid prid dc proc cdate d).total_paid = 0) ∧
    ((HCIA.generate_claim cid pid prid dc proc cdate d).claim_status = "APPROVED" →
      ∃ u, 0.70 ≤ u ∧ u ≤ 0.95 ∧
        (HCIA.generate_claim cid pid prid dc proc cdate d).total_paid =
          HCIA.round2 ((HCIA.generate_claim cid pid prid dc proc cdate d).total_charge * u)) ∧
    ((HCIA.generate_claim cid pid prid dc proc cdate d).claim_status = "PARTIAL" →
      ∃ u, 0.30 ≤ u ∧ u ≤ 0.60 ∧
        (HCIA.generate_claim cid pid prid dc proc cdate d).total_paid =
          HCIA.round2 ((HCIA.generate_claim cid pid prid dc proc cdate d).total_charge * u)) ∧
    0 ≤ (HCIA.generate_claim cid pid prid dc proc cdate d).total_paid ∧
    (HCIA.generate_claim cid pid prid dc proc cdate d).total_paid ≤
      (HCIA.generate_claim cid pid prid dc proc cdate d).total_charge := by
  have htc : 99 ≤ HCIA.claim_total_charge d := HCIA.claim_total_charge_ge d hc0 hc1
  simp only [HCIA.generate_claim]
  rcases HCIA.claim_status_cases dc d with h | h | h | h | h
  · refine ⟨fun _ => ?_, fun ha => absurd (h.symm.trans ha) (by decide),
      fun ha => absurd (h.symm.trans ha) (by decide), ?_, ?_⟩ <;>
      simp [HCIA.claim_paid, h] <;> linarith
  · have hu1 : (0.70 : ℚ) ≤ HCIA.uniform 0.70 0.95 d.payRoll :=
      HCIA.le_uniform (by norm_num) hp0
    have hu2 : HCIA.uniform 0.70 0.95 d.payRoll ≤ 0.95 :=
      HCIA.uniform_le (by norm_num) hp1
    have hpaid : HCIA.claim_paid dc d =
        HCIA.round2 (HCIA.claim_total_charge d * HCIA.uniform 0.70 0.95 d.payRoll) := by
      simp [HCIA.claim_paid, h]
    refine ⟨fun ha => ?_, fun _ => ⟨HCIA.uniform 0.70 0.95 d.payRoll, hu1, hu2, hpaid⟩,
      fun ha => absurd (h.symm.trans ha) (by decide), ?_, ?_⟩
    · rcases ha with ha | ha | ha <;> exact absurd (h.symm.trans ha) (by decide)
    · rw [hpaid]
      exact HCIA.round2_nonneg (by nlinarith)
    · rw [hpaid]
      have := HCIA.round2_le_add
        (HCIA.claim_total_charge d * HCIA.uniform 0.70 0.95 d.payRoll)
      nlinarith
  · have hu1 : (0.30 : ℚ) ≤ HCIA.uniform 0.30 0.60 d.payRoll :=
      HCIA.le_uniform (by norm_num) hp0
    have hu2 : HCIA.uniform 0.30 0.60 d.payRoll ≤ 0.60 :=
      HCIA.uniform_le (by norm_num) hp1
    have hpaid : HCIA.claim_paid dc d =
        HCIA.round2 (HCIA.claim_total_charge d * HCIA.uniform 0.30 0.60 d.payRoll) := by
      simp [HCIA.claim_paid, h]
    refine ⟨fun ha => ?_, fun ha => absurd (h.symm.trans ha) (by decide),
      fun _ => ⟨HCIA.uniform 0.30 0.60 d.payRoll, hu1, hu2, hpaid⟩, ?_, ?_⟩
    · rcases ha with ha | ha | ha <;> exact absurd (h.symm.trans ha) (by decide)
    · rw [hpaid]
      exact HCIA.round2_nonneg (by nlinarith)
    · rw [hpaid]
      have := HCIA.round2_le_add
        (HCIA.claim_total_charge d * HCIA.uniform 0.30 0.60 d.payRoll)
      nlinarith
  · refine ⟨fun _ => ?_, fun ha => absurd (h.symm.trans ha) (by decide),
      fun ha => absurd (h.symm.trans ha) (by decide), ?_, ?_⟩ <;>
      simp [HCIA.claim_paid, h] <;> linarith
  · refine ⟨fun _ => ?_, fun ha => absurd (h.symm.trans ha) (by decide),
      fun ha => absurd (h.symm.trans ha) (by decide), ?_, ?_⟩ <;>
      simp [HCIA.claim_paid, h] <;> linarith

/-- Witness for C4 at concrete draws (all unit draws 0): the payment bound
holds on the resulting claim. -/
theorem C4_payment_by_status_witness :
    0 ≤ (HCIA.generate_claim "CLM1000000" "PAT100000" "PRV200000" "I10" none none
        ⟨0, 0, 0, 0, 0, 0, 0, 0⟩).total_paid ∧
      (HCIA.generate_claim "CLM1000000" "PAT100000" "PRV200000" "I10" none none
        ⟨0, 0, 0, 0, 0, 0, 0, 0⟩).total_paid ≤
      (HCIA.generate_claim "CLM1000000" "PAT100000" "PRV200000" "I10" none none
        ⟨0, 0, 0, 0, 0, 0, 0, 0⟩).total_charge :=
  (C4_payment_by_status "CLM1000000" "PAT100000" "PRV200000" "I10" none none
    ⟨0, 0, 0, 0, 0, 0, 0, 0⟩ (by norm_num) (by norm_num) (by norm_num)
    (by norm_num)).2.2.2

/-- C5: for every claim returned by `generate_claim`, admission and discharge
dates are non-null iff the claim type is INPATIENT; when set, the admission
date is the service date, the length of stay is an integer in [1, 14] drawn
by `randint`, and the discharge date is the admission date plus the length of
stay (hence discharge ≥ admission).  The final conjunct is the spec scenario:
an INPATIENT claim admitted 2024-01-10 with length-of-stay draw 5 is
discharged 2024-01-15. -/
theorem C5_inpatient_stay_dates (cid pid prid dc : String) (proc : Option String)
    (cdate : Option Nat) (d : HCIA.ClaimDraws) :
    (((HCIA.generate_claim cid pid prid dc proc cdate d).admission_date ≠ none ∧
        (HCIA.generate_claim cid pid prid dc proc cdate d).discharge_date ≠ none) ↔
      (HCIA.generate_claim cid pid prid dc proc cdate d).claim_type = "INPATIENT") ∧
    ((HCIA.generate_claim cid pid prid dc proc cdate d).claim_type = "INPATIENT" →
      (HCIA.generate_claim cid pid prid dc proc cdate d).admission_date =
          some (cdate.getD d.fakeDate) ∧
        ∃ los, 1 ≤ los ∧ los ≤ 14 ∧
          (HCIA.generate_claim cid pid prid dc proc cdate d).discharge_date =
            some (cdate.getD d.fakeDate + los)) ∧
    (∀ a dd, (HCIA.generate_claim cid pid prid dc proc cdate d).admission_date = some a →
      (HCIA.generate_claim cid pid prid dc proc cdate d).discharge_date = some dd →
      a ≤ dd) ∧
    (HCIA.generate_claim cid pid prid dc proc (some (HCIA.toOrdinal 2024 1 10))
        ⟨0, 0.9, 4, 0, 0, 0, 0, 0⟩).discharge_date =
      some (HCIA.toOrdinal 2024 1 15) := by
  have h9 : HCIA.claim_type_pick 0.9 = "INPATIENT" := by
    norm_num [HCIA.claim_type_pick]
  have hscen : (HCIA.generate_claim cid pid prid dc proc
      (some (HCIA.toOrdinal 2024 1 10)) ⟨0, 0.9, 4, 0, 0, 0, 0, 0⟩).discharge_date =
      some (HCIA.toOrdinal 2024 1 15) := by
    simp only [HCIA.generate_claim, h9]
    norm_num
    decide
  simp only [HCIA.generate_claim]
  by_cases hip : HCIA.claim_type_pick d.typeRoll = "INPATIENT"
  · refine ⟨by simp [hip], fun _ => ⟨by simp [hip], 1 + d.losDraw % 14, by omega, ?_,
      by simp [hip]⟩, ?_, hscen⟩
    · have := Nat.mod_lt d.losDraw (show 0 < 14 by norm_num)
      omega
    · intro a dd ha hdd
      simp only [hip, if_pos, Option.some.injEq] at ha hdd
      omega
  · refine ⟨by simp [hip], fun h => absurd h hip, ?_, hscen⟩
    intro a dd ha hdd
    simp [hip] at ha

/-- Witness for C5: the INPATIENT scenario claim (admitted 2024-01-10,
length-of-stay draw 5) has its admission date set to the service date and a
discharge date admission + los with los in [1, 14]. -/
theorem C5_inpatient_stay_dates_witness :
    (HCIA.generate_claim "CLM1000000" "PAT100000" "PRV200000" "I10" none
        (some (HCIA.toOrdinal 2024 1 10)) ⟨0, 0.9, 4, 0, 0, 0, 0, 0⟩).admission_date =
      some ((some (HCIA.toOrdinal 2024 1 10)).getD (0 : Nat)) ∧
    ∃ los, 1 ≤ los ∧ los ≤ 14 ∧
      (HCIA.generate_claim "CLM1000000" "PAT100000" "PRV200000" "I10" none
        (some (HCIA.toOrdinal 2024 1 10)) ⟨0, 0.9, 4, 0, 0, 0, 0, 0⟩).discharge_date =
      some ((some (HCIA.toOrdinal 2024 1 10)).getD (0 : Nat) + los) :=
  (C5_inpatient_stay_dates "CLM1000000" "PAT100000" "PRV200000" "I10" none
      (some (HCIA.toOrdinal 2024 1 10)) ⟨0, 0.9, 4, 0, 0, 0, 0, 0⟩).2.1
    (by norm_num [HCIA.generate_claim, HCIA.claim_type_pick])

/-- C6 counterexample: a `ClaimSchema` with `total_paid` greater than
`total_charge` (all field-level validators satisfied) constructs
successfully instead of raising a ValidationError. -/
theorem C6_counterexample :
    (HCIA.mkClaimSchema
      { claim_id := "CLM1000001"
        patient_id := "PAT100000"
        provider_id := "PROV10000"
        claim_date := HCIA.toOrdinal 2024 1 10
        admission_date := none
        discharge_date := none
        claim_type := "OUTPATIENT"
        total_charge := 100
        total_paid := 250
        claim_status := "APPROVED"
        denial_reason := none
        primary_diagnosis_code := "E11.9"
        primary_procedure_code := none }).isOk = true := rfl

/-- C6 (amended): `ClaimSchema` construction validates only the field-level
checks declared in schemas.py lines 68-83 — claim type in its enumeration,
status in its enumeration, non-negative amounts.  It does not check
`total_paid ≤ total_charge`, denial-reason/status coherence, date ordering,
or dates being restricted to INPATIENT: claims violating each of those §3
invariants construct successfully, while an out-of-enumeration type or
status or a negative amount is rejected. -/
theorem C6_validation_checks_fields_only :
    (HCIA.mkClaimSchema
      { claim_id := "CLM1", patient_id := "PAT1", provider_id := "PRV1"
        claim_date := HCIA.toOrdinal 2024 1 10
        admission_date := none, discharge_date := none
        claim_type := "OUTPATIENT", total_charge := 100, total_paid := 250
        claim_status := "APPROVED", denial_reason := none
        primary_diagnosis_code := "E11.9", primary_procedure_code := none }).isOk = true ∧
    (HCIA.mkClaimSchema
      { claim_id := "CLM2", patient_id := "PAT1", provider_id := "PRV1"
        claim_date := HCIA.toOrdinal 2024 1 10
        admission_date := none, discharge_date := none
        claim_type := "OUTPATIENT", total_charge := 100, total_paid := 80
        claim_status := "APPROVED", denial_reason := some "INSUFFICIENT_INFO"
        primary_diagnosis_code := "E11.9", primary_procedure_code := none }).isOk = true ∧
    (HCIA.mkClaimSchema
      { claim_id := "CLM3", patient_id := "PAT1", provider_id := "PRV1"
        claim_date := HCIA.toOrdinal 2024 1 10
        admission_date := some (HCIA.toOrdinal 2024 1 10)
        discharge_date := some (HCIA.toOrdinal 2024 1 5)
        claim_type := "INPATIENT", total_charge := 9000, total_paid := 0
        claim_status := "PENDING", denial_reason := none
        primary_diagnosis_code := "J18.9", primary_procedure_code := none }).isOk = true ∧
    (HCIA.mkClaimSchema
      { claim_id := "CLM4", patient_id := "PAT1", provider_id := "PRV1"
        claim_date := HCIA.toOrdinal 2024 1 10
        admission_date := some (HCIA.toOrdinal 2024 1 10)
        discharge_date := some (HCIA.toOrdinal 2024 1 12)
        claim_type := "OUTPATIENT", total_charge := 500, total_paid := 400
        claim_status := "APPROVED", denial_reason := none
        primary_diagnosis_code := "I10", primary_procedure_code := none }).isOk = true ∧
    (HCIA.mkClaimSchema
      { claim_id := "CLM5", patient_id := "PAT1", provider_id := "PRV1"
        claim_date := HCIA.toOrdinal 2024 1 10
        admission_date := none, discharge_date := none
        claim_type := "HOME_HEALTH", total_charge := 100, total_paid := 0
        claim_status := "PENDING", denial_reason := none
        primary_diagnosis_code := "I10", primary_procedure_code := none }).isOk = false ∧
    (HCIA.mkClaimSchema
      { claim_id := "CLM6", patient_id := "PAT1", provider_id := "PRV1"
        claim_date := HCIA.toOrdinal 2024 1 10
        admission_date := none, discharge_date := none
        claim_type := "OUTPATIENT", total_charge := 100, total_paid := 0
        claim_status := "CANCELLED", denial_reason := none
        primary_diagnosis_code := "I10", primary_procedure_code := none }).isOk = false ∧
    (HCIA.mkClaimSchema
      { claim_id := "CLM7", patient_id := "PAT1", provider_id := "PRV1"
        claim_date := HCIA.toOrdinal 2024 1 10
        admission_date := none, discharge_date := none
        claim_type := "OUTPATIENT", total_charge := 100, total_paid := -5
        claim_status := "APPROVED", denial_reason := none
        primary_diagnosis_code := "I10", primary_procedure_code := none }).isOk = false :=
  ⟨rfl, rfl, rfl, rfl, rfl, rfl, rfl⟩

/-- C7 counterexample: `generate_core_data` with `num_patients = 0` (and an
otherwise well-formed configuration) succeeds, returning empty collections,
instead of failing up front with a configuration error. -/
theorem C7_counterexample :
    (HCIA.generate_core_data 0 2 3 1 ["E11.9"] ["99213"]
      ⟨fun _ => 0, fun _ => 0, fun _ => 0, fun _ => 0, fun _ => ⟨0, 0, 0, 0, 0, 0, 0, 0⟩⟩
      (fun _ => ⟨0, 0, 0, 0, 0, 0, 0, 0, 0, 0, 0, 0⟩)).isOk = true := rfl

/-- C7 (amended): `generate_core_data` performs no up-front parameter
validation: with zero patients it succeeds with empty patient/claim/note
collections; with a negative `claims_per_patient` it succeeds with zero
claims per patient; with an empty diagnosis-code catalog and at least one
patient and claim, it fails only inside claim generation (an IndexError from
`random.choice` on the empty list), after the patients have already been
generated. -/
theorem C7_no_upfront_validation :
    HCIA.generate_core_data 0 2 3 1 ["E11.9"] ["99213"]
        ⟨fun _ => 0, fun _ => 0, fun _ => 0, fun _ => 0, fun _ => ⟨0, 0, 0, 0, 0, 0, 0, 0⟩⟩
        (fun _ => ⟨0, 0, 0, 0, 0, 0, 0, 0, 0, 0, 0, 0⟩) =
      Except.ok ([], ["PROV10000", "PROV10001"], [], []) ∧
    HCIA.generate_core_data 2 1 (-3) 1 ["E11.9"] ["99213"]
        ⟨fun _ => 0, fun _ => 0, fun _ => 0, fun _ => 0, fun _ => ⟨0, 0, 0, 0, 0, 0, 0, 0⟩⟩
        (fun _ => ⟨0, 0, 0, 0, 0, 0, 0, 0, 0, 0, 0, 0⟩) =
      Except.ok (["PAT100000", "PAT100001"], ["PROV10000"], [], []) ∧
    (HCIA.generate_core_data 1 1 1 1 [] ["99213"]
        ⟨fun _ => 0, fun _ => 0, fun _ => 0, fun _ => 0, fun _ => ⟨0, 0, 0, 0, 0, 0, 0, 0⟩⟩
        (fun _ => ⟨0, 0, 0, 0, 0, 0, 0, 0, 0, 0, 0, 0⟩)).isOk = false ∧
    HCIA.generate_patients 1 100000 = ["PAT100000"] :=
  ⟨rfl, rfl, rfl, rfl⟩

/-- C8 (code bug): reproducibility under a fixed seed.  For a truthy seed
(e.g. 42) two runs over different ambient RNG states produce identical
output; but the constructors guard seeding with `if seed:`, and `0` is falsy
in Python, so with seed 0 the ambient state leaks through and two runs with
the same seed and the same call sequence can differ (here: in the very first
claim's type). -/
theorem C8_seed_zero_not_reproducible :
    (∀ g g' : Nat → Nat,
      HCIA.run_first_claim (some 42) g = HCIA.run_first_claim (some 42) g') ∧
    (HCIA.run_first_claim (some 0) (fun _ => 0)).claim_type ≠
      (HCIA.run_first_claim (some 0) (fun _ => 900)).claim_type := by
  constructor
  · intro g g'
    rfl
  · have h1 : (HCIA.run_first_claim (some 0) (fun _ => 0)).claim_type = "OUTPATIENT" := by
      norm_num [HCIA.run_first_claim, HCIA.seeded_stream, HCIA.claim_draws_at, HCIA.rollQ,
        HCIA.generate_claim, HCIA.claim_type_pick]
    have h2 : (HCIA.run_first_claim (some 0) (fun _ => 900)).claim_type = "INPATIENT" := by
      norm_num [HCIA.run_first_claim, HCIA.seeded_stream, HCIA.claim_draws_at, HCIA.rollQ,
        HCIA.generate_claim, HCIA.claim_type_pick]
    rw [h1, h2]
    decide

/-- C9 counterexample: requesting a DIAGNOSIS note on a non-denied claim
does not return a PROGRESS note — the returned note's `note_type` field
stays DIAGNOSIS (only the body text degrades). -/
theorem C9_counterexample :
    (HCIA.generate_note "NOTE100000"
      { claim_id := "CLM1000000", patient_id := "PAT100000", provider_id := "PROV10000"
        claim_date := HCIA.toOrdinal 2024 1 10
        admission_date := none, discharge_date := none
        claim_type := "OUTPATIENT", total_charge := 300, total_paid := 250
        claim_status := "APPROVED", denial_reason := none
        primary_diagnosis_code := "I10", primary_procedure_code := none }
      (some "DIAGNOSIS")
      ⟨0, 0, 0, 0, 0, 0, 0, 0, 0, 0, 0, 0⟩).note_type ≠ "PROGRESS" := by decide

/-- C9 (amended): when `generate_note` is called with note type DIAGNOSIS on
a claim whose status is not DENIED, the note body degrades to the
progress-note text (no denial notice is produced), but the returned note's
`note_type` field remains DIAGNOSIS rather than becoming PROGRESS. -/
theorem C9_diagnosis_on_non_denied_degrades_body (nid : String) (c : HCIA.Claim)
    (d : HCIA.NoteDraws) (h : c.claim_status ≠ "DENIED") :
    (HCIA.generate_note nid c (some "DIAGNOSIS") d).note_text =
        HCIA.generate_progress_note c d ∧
      (HCIA.generate_note nid c (some "DIAGNOSIS") d).note_type = "DIAGNOSIS" := by
  constructor
  · show HCIA.note_text_of c (HCIA.note_type_of c (some "DIAGNOSIS") d) d = _
    simp [HCIA.note_type_of, HCIA.note_text_of, h]
  · rfl

/-- Witness for C9 at a concrete non-denied claim. -/
theorem C9_diagnosis_on_non_denied_degrades_body_witness :
    (HCIA.generate_note "NOTE100001"
        { claim_id := "CLM1000000", patient_id := "PAT100000", provider_id := "PROV10000"
          claim_date := HCIA.toOrdinal 2024 1 10
          admission_date := none, discharge_date := none
          claim_type := "OUTPATIENT", total_charge := 300, total_paid := 250
          claim_status := "APPROVED", denial_reason := none
          primary_diagnosis_code := "I10", primary_procedure_code := none }
        (some "DIAGNOSIS") ⟨0, 0, 0, 0, 0, 0, 0, 0, 0, 0, 0, 0⟩).note_text =
      HCIA.generate_progress_note
        { claim_id := "CLM1000000", patient_id := "PAT100000", provider_id := "PROV10000"
          claim_date := HCIA.toOrdinal 2024 1 10
          admission_date := none, discharge_date := none
          claim_type := "OUTPATIENT", total_charge := 300, total_paid := 250
          claim_status := "APPROVED", denial_reason := none
          primary_diagnosis_code := "I10", primary_procedure_code := none }
        ⟨0, 0, 0, 0, 0, 0, 0, 0, 0, 0, 0, 0⟩ :=
  (C9_diagnosis_on_non_denied_degrades_body "NOTE100001" _ _ (by decide)).1

/-- C10: every note produced by `generate_note` has a body containing the
claim's primary diagnosis code; when the claim is DENIED with a non-null
denial reason, the body also contains the fixed explanation text looked up
for that reason (generic default for an unmapped reason).  The last two
conjuncts are the §8 scenario: for the DENIED / TIMELY_FILING claim, the
DIAGNOSIS-type note body contains the TIMELY_FILING explanation text and the
claim id. -/
theorem C10_note_body_references_claim (nid : String) (c : HCIA.Claim)
    (nt : Option String) (d : HCIA.NoteDraws) :
    HCIA.containsStr (HCIA.generate_note nid c nt d).note_text
        c.primary_diagnosis_code ∧
    (∀ r, c.claim_status = "DENIED" → c.denial_reason = some r →
      HCIA.containsStr (HCIA.generate_note nid c nt d).note_text
        ((HCIA.denial_explanations r).getD "Claim was denied.")) ∧
    HCIA.containsStr
      (HCIA.generate_note "NOTE100000" HCIA.tf_claim (some "DIAGNOSIS") d).note_text
      ((HCIA.denial_explanations "TIMELY_FILING").getD "Claim was denied.") ∧
    HCIA.containsStr
      (HCIA.generate_note "NOTE100000" HCIA.tf_claim (some "DIAGNOSIS") d).note_text
      HCIA.tf_claim.claim_id := by
  have htf : HCIA.note_text_of HCIA.tf_claim "DIAGNOSIS" d =
      HCIA.generate_denial_note HCIA.tf_claim d := by
    simp [HCIA.note_text_of, HCIA.tf_claim]
  refine ⟨HCIA.note_text_contains_code c (HCIA.note_type_of c nt d) d,
    fun r hs hr => HCIA.note_text_contains_expl (HCIA.note_type_of c nt d) d hs hr,
    ?_, ?_⟩
  · show HCIA.containsStr
      (HCIA.note_text_of HCIA.tf_claim
        (HCIA.note_type_of HCIA.tf_claim (some "DIAGNOSIS") d) d) _
    exact HCIA.note_text_contains_expl "DIAGNOSIS" d rfl rfl
  · show HCIA.containsStr
      (HCIA.note_text_of HCIA.tf_claim
        (HCIA.note_type_of HCIA.tf_claim (some "DIAGNOSIS") d) d) _
    rw [show HCIA.note_type_of HCIA.tf_claim (some "DIAGNOSIS") d = "DIAGNOSIS" from rfl,
      htf]
    exact HCIA.denial_note_contains_id d rfl

/-- Witness for C10: the denied TIMELY_FILING claim's note contains the
TIMELY_FILING explanation text. -/
theorem C10_note_body_references_claim_witness :
    HCIA.containsStr
      (HCIA.generate_note "NOTE100000" HCIA.tf_claim none
        ⟨0, 0, 0, 0, 0, 0, 0, 0, 0, 0, 0, 0⟩).note_text
      ((HCIA.denial_explanations "TIMELY_FILING").getD "Claim was denied.") :=
  (C10_note_body_references_claim "NOTE100000" HCIA.tf_claim none
    ⟨0, 0, 0, 0, 0, 0, 0, 0, 0, 0, 0, 0⟩).2.1 "TIMELY_FILING" rfl rfl
